import Mathlib

/-!
Verification of the FormZero notification-settings feature.

Shallow embedding of:
* `src/app/routes/forms.$formId.settings.tsx` — loader, `getEmailDomain`,
  the `SMTP_CONFIGS` provider table, and the `SettingsPage` component
  (modelled as an explicit state machine over `WorkflowState`);
* `src/unnamed/part_000` — the notifications action (POST save / DELETE clear);
* `src/app/routes/forms.$formId.settings.notifications.test.tsx` — the
  test-email action.

JavaScript-specific behaviour (falsiness of form values, `parseInt`,
the regex `/@(.+)$/`, React effect-dependency semantics) is modelled
explicitly; each definition carries a comment pointing at the source lines
it embeds.
-/

namespace FormZero

/-! ## JavaScript string primitives -/

/-- JS falsiness of a `FormData.get(...) as string` value: `null` (absent
field) and the empty string are falsy; every other string is truthy.
Used by the `!x` required-field checks in both actions. -/
def strFalsy : Option String → Bool
  | none => true
  | some s => s == ""

/-- Digits of a JS `parseInt` run: longest leading run of ASCII digits. -/
def digitsToNat (l : List Char) : Nat :=
  l.foldl (fun acc c => acc * 10 + (c.toNat - '0'.toNat)) 0

/-- JS `parseInt(s, 10)`: skip leading whitespace, read an optional sign,
then the longest leading run of decimal digits; `NaN` (here `none`) if that
run is empty.  ASCII whitespace modelled. -/
def jsParseInt (s : String) : Option Int :=
  let l := s.data.dropWhile (fun c => c == ' ' || c == '\t' || c == '\n' || c == '\r')
  let signApplied : Int → Int :=
    match l with
    | '-' :: _ => fun n => -n
    | _ => fun n => n
  let rest :=
    match l with
    | '-' :: r => r
    | '+' :: r => r
    | _ => l
  let digits := rest.takeWhile Char.isDigit
  if digits.isEmpty then none
  else some (signApplied (digitsToNat digits))

/-- Characters matched by the JS regex `.` (no `/s` flag): everything except
the line terminators `\n`, `\r`, U+2028, U+2029. -/
def jsDotChar (c : Char) : Bool :=
  !(c == '\n') && !(c == '\r') && !(c.toNat == 0x2028) && !(c.toNat == 0x2029)

/-- Leftmost match of `/@(.+)$/` over a character list, returning the
capture group lowercased.  At a position holding `@`, the greedy `.+$`
succeeds exactly when the remainder is non-empty and free of line
terminators; otherwise the engine advances one position.
ASCII case folding models `toLowerCase`. -/
def domainMatch : List Char → Option (List Char)
  | [] => none
  | c :: rest =>
    if c == '@' && !rest.isEmpty && rest.all jsDotChar then
      some (rest.map Char.toLower)
    else
      domainMatch rest

/-- `getEmailDomain` (settings.tsx lines 78-81):
`email.match(/@(.+)$/)`, returning `match[1].toLowerCase()` or `null`. -/
def getEmailDomain (email : String) : Option String :=
  (domainMatch email.data).map List.asString

/-- The domain reading used by the spec sentence for claim C5: the
substring after the LAST `@`, lowercased; no `@`, or nothing after the
last `@`, yields no domain.  Stated from the words of the spec, to be
compared with `getEmailDomain` as embedded from the source. -/
def domainAfterLastAt (email : String) : Option String :=
  if email.data.contains '@' then
    let after := (email.data.reverse.takeWhile (fun c => !(c == '@'))).reverse
    if after.isEmpty then none else some (after.map Char.toLower).asString
  else none

/-- The substring after the FIRST `@`, lowercased, when non-empty — the
reading that actually agrees with the leftmost-match regex on
line-terminator-free input. -/
def domainAfterFirstAt (email : String) : Option String :=
  let after := (email.data.dropWhile (fun c => !(c == '@'))).drop 1
  if email.data.contains '@' && !after.isEmpty then
    some (after.map Char.toLower).asString
  else none

/-! ## Provider table -/

/-- One entry of `SMTP_CONFIGS` (settings.tsx lines 29-60). -/
structure SmtpProfile where
  host : String
  port : Nat
  secure : Bool
  hint : String
  deriving DecidableEq

/-- `SMTP_CONFIGS` (settings.tsx lines 29-60): exact, already-lowercased
domain keys to fixed profiles. -/
def SMTP_CONFIGS : String → Option SmtpProfile := fun d =>
  if d == "gmail.com" then
    some ⟨"smtp.gmail.com", 587, true,
      "For Gmail, use an App Password instead of your regular password. Go to Google Account → Security → 2-Step Verification → App passwords."⟩
  else if d == "outlook.com" then
    some ⟨"smtp-mail.outlook.com", 587, true,
      "For Outlook, use your regular Microsoft account password or an App Password if you have 2FA enabled."⟩
  else if d == "hotmail.com" then
    some ⟨"smtp-mail.outlook.com", 587, true,
      "For Hotmail, use your regular Microsoft account password or an App Password if you have 2FA enabled."⟩
  else if d == "yahoo.com" then
    some ⟨"smtp.mail.yahoo.com", 587, true,
      "For Yahoo, generate an App Password at: Account Info → Account Security → Generate app password."⟩
  else if d == "icloud.com" then
    some ⟨"smtp.mail.me.com", 587, true,
      "For iCloud, use an App-Specific Password. Go to appleid.apple.com → Sign-In and Security → App-Specific Passwords."⟩
  else none

/-! ## Persistence model -/

/-- A `form_settings` row, shaped like the `FormSettings` type of
settings.tsx lines 18-26 (plus `updated_at`, which the table stores and
`SELECT *` returns).  Nullable columns are `Option`s; the save action only
ever writes `some` values, with `smtp_port` the `parseInt` of the
submitted string. -/
structure FormSettings where
  id : String
  form_id : String
  notification_email : Option String
  notification_email_password : Option String
  smtp_host : Option String
  smtp_port : Option Int
  smtp_secure : Int
  updated_at : Int
  deriving DecidableEq

/-- The settings store: the `form_settings` table as a row list.
`SELECT ... WHERE form_id = ? ... first()` is `List.find?`. -/
abbrev Store := List FormSettings

/-- HTTP methods distinguished by the two actions. -/
inductive Method
  | POST
  | DELETE
  | GET
  | PUT
  deriving DecidableEq

/-- A request to one of the actions: the route param `formId`, the verb,
and the four `FormData` fields (`none` models an absent field, whose
`formData.get` is `null`). -/
structure ActionRequest where
  method : Method
  formId : String
  notification_email : Option String
  notification_email_password : Option String
  smtp_host : Option String
  smtp_port : Option String
  deriving DecidableEq

/-- The JSON body + status the actions answer with.  `error` is the
`error` string, absent on success. -/
structure ActionResponse where
  status : Nat
  success : Bool
  error : Option String
  deriving DecidableEq

/-- `loader` (settings.tsx lines 62-76): fetch the settings row for
`formId`, `null` when absent. -/
def loader (store : Store) (formId : String) : Option FormSettings :=
  store.find? (fun r => r.form_id == formId)

/-- Required-field validation shared by both actions
(part_000 lines 56-62, test route lines 37-43): fail when any of the four
fields is absent or empty. -/
def missingRequired (req : ActionRequest) : Bool :=
  strFalsy req.notification_email || strFalsy req.notification_email_password ||
    strFalsy req.smtp_host || strFalsy req.smtp_port

/-- The notifications action of `src/unnamed/part_000`, as
(response, resulting store).  `forms` is the `forms` table as a list of
ids, `freshId` the `crypto.randomUUID()` drawn for an insert, `now` the
`Date.now()` timestamp.

Order of the source: form-existence check (lines 8-19), DELETE branch
(lines 21-37), method gate (lines 39-45), required-field validation
(lines 56-62), existing-row lookup and UPDATE/INSERT (lines 64-120).

`parseInt(smtp_port, 10)` of a string with no leading digits is `NaN`;
the D1 driver refuses a `NaN` bind value, so the statement throws inside
the `try` and the catch answers 500 without writing (lines 123-129).
That is the `none` branch of `jsParseInt` below. -/
def notificationsAction (forms : List String) (store : Store)
    (freshId : String) (now : Int) (req : ActionRequest) :
    ActionResponse × Store :=
  if !(forms.contains req.formId) then
    (⟨404, false, some "Form not found"⟩, store)
  else if req.method == Method.DELETE then
    (⟨200, true, none⟩, store.filter (fun r => !(r.form_id == req.formId)))
  else if !(req.method == Method.POST) then
    (⟨405, false, some "Method not allowed"⟩, store)
  else if missingRequired req then
    (⟨400, false, some "Missing required fields"⟩, store)
  else
    match jsParseInt ((req.smtp_port).getD "") with
    | none =>
      (⟨500, false, some "Failed to save settings"⟩, store)
    | some n =>
      match store.find? (fun r => r.form_id == req.formId) with
      | some _ =>
        (⟨200, true, none⟩,
          store.map (fun r =>
            if r.form_id == req.formId then
              { r with
                notification_email := req.notification_email,
                notification_email_password := req.notification_email_password,
                smtp_host := req.smtp_host,
                smtp_port := some n,
                smtp_secure := 1,
                updated_at := now }
            else r))
      | none =>
        (⟨200, true, none⟩,
          store ++ [⟨freshId, req.formId, req.notification_email,
            req.notification_email_password, req.smtp_host, some n, 1, now⟩])

/-- The SMTP configuration handed to `sendTestEmail`
(test route lines 46-51).  `smtp_port = none` models `NaN`. -/
structure TestConfig where
  notification_email : String
  notification_email_password : String
  smtp_host : String
  smtp_port : Option Int
  deriving DecidableEq

/-- Outcome of the external email test service. -/
inductive TestOutcome
  | ok (messageId : String)
  | fail (error : String)
  deriving DecidableEq

/-- The test action of
`src/app/routes/forms.$formId.settings.notifications.test.tsx`, as
(response, config dispatched to the email service) — the second component
is `none` exactly when no test email was sent.

Order of the source: method gate (lines 6-11), form-existence check
(lines 17-28), required-field validation (lines 37-43), delegation to
`sendTestEmail` (lines 46-63). -/
def testAction (forms : List String) (sendTest : TestConfig → TestOutcome)
    (req : ActionRequest) : ActionResponse × Option TestConfig :=
  if !(req.method == Method.POST) then
    (⟨405, false, some "Method not allowed"⟩, none)
  else if !(forms.contains req.formId) then
    (⟨404, false, some "Form not found"⟩, none)
  else if missingRequired req then
    (⟨400, false, some "Missing required fields"⟩, none)
  else
    let cfg : TestConfig :=
      ⟨(req.notification_email).getD "", (req.notification_email_password).getD "",
        (req.smtp_host).getD "", jsParseInt ((req.smtp_port).getD "")⟩
    match sendTest cfg with
    | TestOutcome.ok _ => (⟨200, true, none⟩, some cfg)
    | TestOutcome.fail e => (⟨400, false, some e⟩, some cfg)

/-! ## Settings workflow controller (the `SettingsPage` component)

The component is embedded as a state machine: one `WorkflowState` record
per render-stable moment, one `step` per external event (an input change,
a button click, a timer firing, a fetcher response).  Each `step` case
folds in the `useEffect` cascade the event triggers; React runs an effect
again only when one of its declared dependencies changed, which the cases
encode by comparing the relevant fields before and after the update.
Loader revalidation after fetcher completion is not modelled: `settings`
(the loader data) stays fixed for the session. -/

/-- Lifecycle of a react-router fetcher, restricted to the two phases the
component reads (`"submitting"` vs `"idle"`). -/
inductive FetcherPhase
  | idle
  | submitting
  deriving DecidableEq

/-- The fields of `fetcher.data` the component reads. -/
structure FetcherData where
  success : Bool
  error : Option String
  deriving DecidableEq

/-- A fetcher: its phase plus the data of its last completed request
(kept across a resubmission until the new response lands). -/
structure Fetcher where
  phase : FetcherPhase
  data : Option FetcherData
  deriving DecidableEq

/-- The ephemeral state of `SettingsPage` (settings.tsx lines 83-195):
the loader data, the six `useState` hooks, the three fetchers, and
whether a debounce timer is pending. -/
structure WorkflowState where
  settings : Option FormSettings
  email : String
  password : String
  smtpHost : String
  smtpPort : String
  emailDomain : Option String
  smtpConfig : Option SmtpProfile
  testPassed : Bool
  testResultValid : Bool
  saveF : Fetcher
  testF : Fetcher
  clearF : Fetcher
  pendingTimer : Bool
  deriving DecidableEq

/-- The four editable fields. -/
inductive Field
  | email
  | password
  | host
  | port
  deriving DecidableEq

/-- Current value of an editable field. -/
def fieldValue (s : WorkflowState) : Field → String
  | Field.email => s.email
  | Field.password => s.password
  | Field.host => s.smtpHost
  | Field.port => s.smtpPort

/-- External events driving the component. -/
inductive Ev
  | edit (f : Field) (v : String)
  | debounceFire
  | clickTest
  | clickSave
  | clickClear
  | testResponse (r : FetcherData)
  | saveResponse (r : FetcherData)
  | clearResponse (r : FetcherData)
  deriving DecidableEq

/-- The derived `testSuccess` of line 142:
`testFetcher.state === "idle" && testFetcher.data?.success && testResultValid`. -/
def testSuccessOf (s : WorkflowState) : Bool :=
  s.testF.phase == FetcherPhase.idle &&
    ((s.testF.data.map (fun d => d.success)).getD false) && s.testResultValid

/-- The field-change effect (lines 154-158): dependencies
`[email, password, smtpHost, smtpPort]`, so it re-runs exactly when one
of the four fields changed across the update; its body resets both gate
flags. -/
def applyFieldChangeEffect (old new : WorkflowState) : WorkflowState :=
  if old.email == new.email && old.password == new.password &&
      old.smtpHost == new.smtpHost && old.smtpPort == new.smtpPort then
    new
  else
    { new with testPassed := false, testResultValid := false }

/-- The `testSuccess` effect (lines 148-152): dependency `[testSuccess]`,
so it re-runs exactly when the derived boolean flipped; when it flipped to
true the body sets `testPassed`. -/
def applyTestSuccessEffect (old new : WorkflowState) : WorkflowState :=
  if testSuccessOf new && !(testSuccessOf old) then
    { new with testPassed := true }
  else
    new

/-- One step of the workflow controller.  Each case carries the setState
calls of the handler plus the net result of the effect cascade it
triggers. -/
def step (s : WorkflowState) : Ev → WorkflowState
  | Ev.edit f v =>
    -- onChange handlers (lines 220, 241, 262, 278).  A setState with an
    -- unchanged value bails out without re-rendering, so no effect runs.
    let s1 :=
      match f with
      | Field.email => { s with email := v }
      | Field.password => { s with password := v }
      | Field.host => { s with smtpHost := v }
      | Field.port => { s with smtpPort := v }
    -- Debounce effect (lines 105-136), dependencies [email, settings?.smtp_host]:
    -- re-runs only when the email changed.  Its cleanup cancels any pending
    -- timer; the body clears domain and profile at once when the new email
    -- has no domain (lines 109-113), else schedules a fresh 500 ms timer.
    let s2 :=
      if f == Field.email && !(v == s.email) then
        match getEmailDomain v with
        | none => { s1 with emailDomain := none, smtpConfig := none, pendingTimer := false }
        | some _ => { s1 with pendingTimer := true }
      else s1
    applyTestSuccessEffect s (applyFieldChangeEffect s s2)
  | Ev.debounceFire =>
    -- The timer body (lines 116-133).  A timer exists only while
    -- `pendingTimer`; it was scheduled with a non-null domain for the
    -- current email (any email change since would have cancelled it), so
    -- the `none` branch below is unreachable and leaves the state as is.
    if !s.pendingTimer then s
    else
      match getEmailDomain s.email with
      | none => s
      | some d =>
        let s1 := { s with pendingTimer := false, emailDomain := some d }
        let s2 :=
          match SMTP_CONFIGS d with
          | some cfg =>
            -- Known provider (lines 119-123): overwrite host and port.
            { s1 with
              smtpConfig := some cfg
              smtpHost := cfg.host
              smtpPort := toString cfg.port }
          | none =>
            -- Unknown provider (lines 124-132): clear the profile; clear
            -- host and port only when no persisted host exists.
            let s1a := { s1 with smtpConfig := none }
            if strFalsy (s.settings.bind (fun st => st.smtp_host)) then
              { s1a with smtpHost := "", smtpPort := "" }
            else s1a
        -- When host or port changed, the field-change effect fires on the
        -- next pass and resets the gate flags.
        applyTestSuccessEffect s (applyFieldChangeEffect s s2)
  | Ev.clickTest =>
    -- handleTestEmail (lines 175-188): mark the result current, then
    -- submit a snapshot of the four fields.  (The button is only enabled
    -- when all four fields are non-empty, line 312; the model does not
    -- need that guard for the proved invariants.)
    { s with
      testResultValid := true
      testF := { phase := FetcherPhase.submitting, data := s.testF.data } }
  | Ev.clickSave =>
    -- The form submit (line 207 / 322).
    { s with saveF := { phase := FetcherPhase.submitting, data := s.saveF.data } }
  | Ev.clickClear =>
    -- handleDisableNotifications (lines 190-195).
    { s with clearF := { phase := FetcherPhase.submitting, data := s.clearF.data } }
  | Ev.testResponse r =>
    -- The test fetcher settles (idle, fresh data); the testSuccess effect
    -- (lines 148-152) then fires if the derived boolean flipped to true,
    -- which needs r.success and a still-current result.
    let s1 := { s with testF := { phase := FetcherPhase.idle, data := some r } }
    applyTestSuccessEffect s s1
  | Ev.saveResponse r =>
    -- The save fetcher settles; no effect depends on it.
    { s with saveF := { phase := FetcherPhase.idle, data := some r } }
  | Ev.clearResponse r =>
    -- The clear fetcher settles; the clear effect (lines 161-173) fires
    -- on its changed dependencies and, on success, resets every field,
    -- the domain, the profile and both gate flags.  The follow-up passes
    -- (field-change effect, debounce effect on the emptied email, which
    -- also cancels any pending timer) change nothing further.
    let s1 := { s with clearF := { phase := FetcherPhase.idle, data := some r } }
    if r.success then
      { s1 with
        email := ""
        password := ""
        smtpHost := ""
        smtpPort := ""
        emailDomain := none
        smtpConfig := none
        testPassed := false
        testResultValid := false
        pendingTimer := false }
    else s1

/-- Initial state at mount for loader data `settings`: the `useState`
initialisers (lines 89-102) followed by the first effect pass, which runs
every effect once — the field-change effect resets `testResultValid`
(initialised `true` on line 102) to `false`, and the debounce effect
schedules a timer exactly when the initial email has a domain. -/
def initState (settings : Option FormSettings) : WorkflowState :=
  let email := (settings.bind (fun st => st.notification_email)).getD ""
  let domain := getEmailDomain email
  { settings := settings
    email := email
    password := (settings.bind (fun st => st.notification_email_password)).getD ""
    smtpHost := (settings.bind (fun st => st.smtp_host)).getD ""
    smtpPort := ((settings.bind (fun st => st.smtp_port)).map toString).getD ""
    emailDomain := domain
    smtpConfig := domain.bind SMTP_CONFIGS
    testPassed := false
    testResultValid := false
    saveF := { phase := FetcherPhase.idle, data := none }
    testF := { phase := FetcherPhase.idle, data := none }
    clearF := { phase := FetcherPhase.idle, data := none }
    pendingTimer := domain.isSome }

/-- Run a sequence of events. -/
def run (s : WorkflowState) : List Ev → WorkflowState
  | [] => s
  | e :: es => run (step s e) es

/-- Whether an event, taken in state `s`, records a
successful-and-still-current test outcome: a test response that is a
success while `testResultValid` still holds. -/
def recordsCurrentSuccess (s : WorkflowState) : Ev → Bool
  | Ev.testResponse r => r.success && s.testResultValid
  | _ => false

/-- No event of the trace records a successful-and-current test outcome. -/
def noRecord : WorkflowState → List Ev → Bool
  | _, [] => true
  | s, e :: es => !recordsCurrentSuccess s e && noRecord (step s e) es

/-- The save control (lines 318-331): `disabled={!testPassed}`. -/
def saveButtonDisabled (s : WorkflowState) : Bool :=
  !s.testPassed

/-- The SMTP section renders only under `{emailDomain && ...}` (line 228). -/
def smtpSectionShown (s : WorkflowState) : Bool :=
  s.emailDomain.isSome

/-- The editable host/port inputs render only under `{!smtpConfig && ...}`
inside the SMTP section (lines 249-286). -/
def hostPortEditable (s : WorkflowState) : Bool :=
  s.emailDomain.isSome && s.smtpConfig.isNone

/-! ## Helper lemmas -/

lemma atse_testPassed (o n : WorkflowState) :
    (applyTestSuccessEffect o n).testPassed =
      ((testSuccessOf n && !(testSuccessOf o)) || n.testPassed) := by
  unfold applyTestSuccessEffect
  split <;> simp_all

lemma atse_testResultValid (o n : WorkflowState) :
    (applyTestSuccessEffect o n).testResultValid = n.testResultValid := by
  unfold applyTestSuccessEffect
  split <;> rfl

lemma atse_fields (o n : WorkflowState) :
    (applyTestSuccessEffect o n).email = n.email ∧
      (applyTestSuccessEffect o n).password = n.password ∧
      (applyTestSuccessEffect o n).smtpHost = n.smtpHost ∧
      (applyTestSuccessEffect o n).smtpPort = n.smtpPort ∧
      (applyTestSuccessEffect o n).emailDomain = n.emailDomain ∧
      (applyTestSuccessEffect o n).smtpConfig = n.smtpConfig := by
  unfold applyTestSuccessEffect
  split <;> simp_all

lemma afce_testPassed (o n : WorkflowState) :
    (applyFieldChangeEffect o n).testPassed =
      ((o.email == n.email && o.password == n.password &&
          o.smtpHost == n.smtpHost && o.smtpPort == n.smtpPort) && n.testPassed) := by
  unfold applyFieldChangeEffect
  split <;> simp_all

lemma afce_testResultValid (o n : WorkflowState) :
    (applyFieldChangeEffect o n).testResultValid =
      ((o.email == n.email && o.password == n.password &&
          o.smtpHost == n.smtpHost && o.smtpPort == n.smtpPort) && n.testResultValid) := by
  unfold applyFieldChangeEffect
  split <;> simp_all

lemma afce_fields (o n : WorkflowState) :
    (applyFieldChangeEffect o n).email = n.email ∧
      (applyFieldChangeEffect o n).password = n.password ∧
      (applyFieldChangeEffect o n).smtpHost = n.smtpHost ∧
      (applyFieldChangeEffect o n).smtpPort = n.smtpPort ∧
      (applyFieldChangeEffect o n).emailDomain = n.emailDomain ∧
      (applyFieldChangeEffect o n).smtpConfig = n.smtpConfig ∧
      (applyFieldChangeEffect o n).testF = n.testF := by
  unfold applyFieldChangeEffect
  split <;> simp_all

/-- The field-change effect never creates a fresh `testSuccess`: when the
update did not touch the test fetcher or `testResultValid`, no
false-to-true flip of the derived boolean is possible. -/
lemma no_fresh_testSuccess (s s2 : WorkflowState)
    (h1 : s2.testF = s.testF) (h2 : s2.testResultValid = s.testResultValid) :
    (testSuccessOf (applyFieldChangeEffect s s2) && !(testSuccessOf s)) = false := by
  unfold applyFieldChangeEffect
  split
  · simp only [testSuccessOf, h1, h2, Bool.and_not_self]
  · simp [testSuccessOf]

/-- No event that does not record a successful-and-still-current test
outcome can raise `testPassed`. -/
lemma step_testPassed_false (s : WorkflowState) (e : Ev)
    (h : s.testPassed = false) (hr : recordsCurrentSuccess s e = false) :
    (step s e).testPassed = false := by
  cases e with
  | edit f v =>
    cases f with
    | email =>
      simp only [step]
      rw [atse_testPassed, afce_testPassed]
      split
      · cases hgd : getEmailDomain v <;> simp_all [no_fresh_testSuccess]
      · simp_all [no_fresh_testSuccess]
    | password =>
      simp only [step]
      rw [atse_testPassed, afce_testPassed]
      simp_all [no_fresh_testSuccess]
    | host =>
      simp only [step]
      rw [atse_testPassed, afce_testPassed]
      simp_all [no_fresh_testSuccess]
    | port =>
      simp only [step]
      rw [atse_testPassed, afce_testPassed]
      simp_all [no_fresh_testSuccess]
  | debounceFire =>
    simp only [step]
    split
    · exact h
    · cases hgd : getEmailDomain s.email with
      | none => simp [hgd, h]
      | some d =>
        cases hc : SMTP_CONFIGS d <;>
          simp only [hgd, hc] <;>
          rw [atse_testPassed, afce_testPassed] <;>
          first
            | (split <;> simp_all [no_fresh_testSuccess])
            | simp_all [no_fresh_testSuccess]
  | clickTest => simpa [step] using h
  | clickSave => simpa [step] using h
  | clickClear => simpa [step] using h
  | testResponse r =>
    simp only [step]
    rw [atse_testPassed]
    simp only [recordsCurrentSuccess] at hr
    simp [testSuccessOf, hr, h]
  | saveResponse r => simpa [step] using h
  | clearResponse r =>
    simp only [step]
    split <;> simp [h]

/-- Along a trace with no recorded successful-and-current test outcome,
`testPassed` stays false. -/
lemma run_testPassed_false :
    ∀ (es : List Ev) (s : WorkflowState), s.testPassed = false →
      noRecord s es = true → (run s es).testPassed = false := by
  intro es
  induction es with
  | nil => intro s h _; simpa [run] using h
  | cons e es ih =>
    intro s h hn
    simp only [noRecord, Bool.and_eq_true, Bool.not_eq_true'] at hn
    exact ih (step s e) (step_testPassed_false s e h hn.1) hn.2

/-- `List.find?` over a key-preserving conditional map: updating the rows
whose key matches updates the found row. -/
lemma find?_map_upsert (fid : String) (g : FormSettings → FormSettings)
    (hg : ∀ r, (g r).form_id = r.form_id) :
    ∀ l : Store,
      (l.map (fun r => if r.form_id = fid then g r else r)).find?
          (fun r => r.form_id == fid) =
        (l.find? (fun r => r.form_id == fid)).map g := by
  intro l
  induction l with
  | nil => rfl
  | cons a l ih =>
    by_cases h : a.form_id = fid
    · have hb : (a.form_id == fid) = true := beq_iff_eq.mpr h
      have hgb : ((g a).form_id == fid) = true := by
        rw [beq_iff_eq, hg]
        exact h
      have h1 : List.map (fun r => if r.form_id = fid then g r else r) (a :: l) =
          g a :: List.map (fun r => if r.form_id = fid then g r else r) l := by
        rw [List.map_cons, if_pos h]
      rw [h1]
      simp only [List.find?, hgb, hb]
      rfl
    · have hb : (a.form_id == fid) = false := beq_eq_false_iff_ne.mpr h
      have h1 : List.map (fun r => if r.form_id = fid then g r else r) (a :: l) =
          a :: List.map (fun r => if r.form_id = fid then g r else r) l := by
        rw [List.map_cons, if_neg h]
      rw [h1]
      simp only [List.find?, hb]
      exact ih

/-- `List.find?` over an appended singleton when the prefix holds no
match. -/
lemma find?_append_singleton (p : FormSettings → Bool) (a : FormSettings) :
    ∀ l : Store, l.find? p = none →
      (l ++ [a]).find? p = if p a then some a else none := by
  intro l
  induction l with
  | nil =>
    intro _
    cases hpa : p a <;> simp [List.find?, hpa]
  | cons b l ih =>
    intro h
    rw [List.find?] at h
    cases hb : p b with
    | true => simp [hb] at h
    | false =>
      simp only [hb] at h
      simpa [List.find?, hb] using ih h

lemma atse_emailDomain (o n : WorkflowState) :
    (applyTestSuccessEffect o n).emailDomain = n.emailDomain := by
  unfold applyTestSuccessEffect
  split <;> rfl

lemma atse_smtpConfig (o n : WorkflowState) :
    (applyTestSuccessEffect o n).smtpConfig = n.smtpConfig := by
  unfold applyTestSuccessEffect
  split <;> rfl

lemma atse_smtpHost (o n : WorkflowState) :
    (applyTestSuccessEffect o n).smtpHost = n.smtpHost := by
  unfold applyTestSuccessEffect
  split <;> rfl

lemma atse_smtpPort (o n : WorkflowState) :
    (applyTestSuccessEffect o n).smtpPort = n.smtpPort := by
  unfold applyTestSuccessEffect
  split <;> rfl

lemma afce_emailDomain (o n : WorkflowState) :
    (applyFieldChangeEffect o n).emailDomain = n.emailDomain := by
  unfold applyFieldChangeEffect
  split <;> rfl

lemma afce_smtpConfig (o n : WorkflowState) :
    (applyFieldChangeEffect o n).smtpConfig = n.smtpConfig := by
  unfold applyFieldChangeEffect
  split <;> rfl

lemma afce_smtpHost (o n : WorkflowState) :
    (applyFieldChangeEffect o n).smtpHost = n.smtpHost := by
  unfold applyFieldChangeEffect
  split <;> rfl

lemma afce_smtpPort (o n : WorkflowState) :
    (applyFieldChangeEffect o n).smtpPort = n.smtpPort := by
  unfold applyFieldChangeEffect
  split <;> rfl

/-- Characterisation of the leftmost `/@(.+)$/` match on input free of
line terminators: it keys on the FIRST `@` and captures everything after
it. -/
lemma domainMatch_characterization :
    ∀ l : List Char, l.all jsDotChar = true →
      domainMatch l =
        (if (l.contains '@' && !((l.dropWhile (fun c => !(c == '@'))).drop 1).isEmpty)
        then some (((l.dropWhile (fun c => !(c == '@'))).drop 1).map Char.toLower)
        else none) := by
  intro l
  induction l with
  | nil => intro _; rfl
  | cons c rest ih =>
    intro hall
    rw [List.all_cons, Bool.and_eq_true] at hall
    cases hc : c == '@' with
    | true =>
      have hceq : c = '@' := by simpa using hc
      subst hceq
      cases hrest : rest.isEmpty with
      | true =>
        have : rest = [] := List.isEmpty_iff.mp hrest
        subst this
        rfl
      | false =>
        simp [domainMatch, List.dropWhile, hall.2, hrest]
    | false =>
      have hcne : c ≠ '@' := by simpa using hc
      have hbc : ('@' == c) = false := beq_eq_false_iff_ne.mpr (Ne.symm hcne)
      have hstep : domainMatch (c :: rest) = domainMatch rest := by
        simp [domainMatch, hc]
      have hdw : List.dropWhile (fun c => !(c == '@')) (c :: rest) =
          List.dropWhile (fun c => !(c == '@')) rest := by
        simp [List.dropWhile, hc]
      have hcont : (c :: rest).contains '@' = rest.contains '@' := by
        rw [List.contains_cons, hbc, Bool.false_or]
      rw [hstep, ih hall.2, hdw, hcont]

/-! ## Claim theorems: workflow controller -/

/-- C1: the save control is enabled exactly when `testPassed` holds;
`testPassed` is raised exactly by a test response that completes
successfully while its result is still marked current; and along any
event trace from mount in which no successful-and-still-current test
outcome is recorded, the save control stays disabled. -/
theorem save_gate_test_invariant :
    (∀ s : WorkflowState, saveButtonDisabled s = !s.testPassed) ∧
    (∀ (s : WorkflowState) (r : FetcherData),
      s.testF.phase = FetcherPhase.submitting → r.success = true →
      s.testResultValid = true →
      (step s (Ev.testResponse r)).testPassed = true) ∧
    (∀ (settings : Option FormSettings) (es : List Ev),
      noRecord (initState settings) es = true →
      saveButtonDisabled (run (initState settings) es) = true) := by
  refine ⟨fun s => rfl, ?_, ?_⟩
  · intro s r h1 h2 h3
    simp only [step]
    rw [atse_testPassed]
    simp [testSuccessOf, h1, h2, h3]
  · intro settings es hn
    have h0 : (initState settings).testPassed = false := rfl
    have hrun := run_testPassed_false es (initState settings) h0 hn
    simp [saveButtonDisabled, hrun]

/-- Witness for C1: after a failed test the save control is disabled. -/
theorem save_gate_test_invariant_witness :
    noRecord (initState none)
        [Ev.edit Field.email "a@b.c", Ev.clickTest,
          Ev.testResponse ⟨false, some "connection refused"⟩] = true ∧
    saveButtonDisabled (run (initState none)
        [Ev.edit Field.email "a@b.c", Ev.clickTest,
          Ev.testResponse ⟨false, some "connection refused"⟩]) = true :=
  ⟨by decide, save_gate_test_invariant.2.2 none
    [Ev.edit Field.email "a@b.c", Ev.clickTest,
      Ev.testResponse ⟨false, some "connection refused"⟩] (by decide)⟩

/-- C2: changing any of the four fields immediately lowers both gate
flags; clicking test marks the result current while the request is still
in flight; and a test response arriving while `testResultValid` is false
(after a further edit) leaves `testPassed` unchanged. -/
theorem edit_invalidates_stale_test_ignored :
    (∀ (s : WorkflowState) (f : Field) (v : String), ¬(v = fieldValue s f) →
      (step s (Ev.edit f v)).testPassed = false ∧
      (step s (Ev.edit f v)).testResultValid = false) ∧
    (∀ s : WorkflowState,
      (step s Ev.clickTest).testResultValid = true ∧
      (step s Ev.clickTest).testF.phase = FetcherPhase.submitting) ∧
    (∀ (s : WorkflowState) (r : FetcherData), s.testResultValid = false →
      (step s (Ev.testResponse r)).testPassed = s.testPassed) := by
  refine ⟨?_, fun s => ⟨rfl, rfl⟩, ?_⟩
  · intro s f v hne
    cases f with
    | email =>
      have h1 : (v == s.email) = false := beq_eq_false_iff_ne.mpr hne
      have h2 : (s.email == v) = false :=
        beq_eq_false_iff_ne.mpr (fun h => hne h.symm)
      constructor
      · simp only [step]
        rw [atse_testPassed, afce_testPassed]
        split
        · cases hgd : getEmailDomain v <;> simp_all [no_fresh_testSuccess]
        · simp_all
      · simp only [step]
        rw [atse_testResultValid, afce_testResultValid]
        split
        · cases hgd : getEmailDomain v <;> simp_all
        · simp_all
    | password =>
      have h2 : (s.password == v) = false :=
        beq_eq_false_iff_ne.mpr (fun h => hne h.symm)
      constructor
      · simp only [step]
        rw [atse_testPassed, afce_testPassed]
        simp_all [no_fresh_testSuccess]
      · simp only [step]
        rw [atse_testResultValid, afce_testResultValid]
        simp_all
    | host =>
      have h2 : (s.smtpHost == v) = false :=
        beq_eq_false_iff_ne.mpr (fun h => hne h.symm)
      constructor
      · simp only [step]
        rw [atse_testPassed, afce_testPassed]
        simp_all [no_fresh_testSuccess]
      · simp only [step]
        rw [atse_testResultValid, afce_testResultValid]
        simp_all
    | port =>
      have h2 : (s.smtpPort == v) = false :=
        beq_eq_false_iff_ne.mpr (fun h => hne h.symm)
      constructor
      · simp only [step]
        rw [atse_testPassed, afce_testPassed]
        simp_all [no_fresh_testSuccess]
      · simp only [step]
        rw [atse_testResultValid, afce_testResultValid]
        simp_all
  · intro s r h
    simp only [step]
    rw [atse_testPassed]
    simp [testSuccessOf, h]

/-- Witness for C2: concrete edit, test click, and stale response. -/
theorem edit_invalidates_stale_test_ignored_witness :
    ((step (initState none) (Ev.edit Field.password "pw")).testPassed = false ∧
      (step (initState none) (Ev.edit Field.password "pw")).testResultValid = false) ∧
    (step (initState none) Ev.clickTest).testResultValid = true ∧
    (step (initState none) (Ev.testResponse ⟨true, none⟩)).testPassed =
      (initState none).testPassed :=
  ⟨edit_invalidates_stale_test_ignored.1 (initState none) Field.password "pw" (by decide),
    (edit_invalidates_stale_test_ignored.2.1 (initState none)).1,
    edit_invalidates_stale_test_ignored.2.2 (initState none) ⟨true, none⟩ (by decide)⟩

/-- C5 counterexample: on `"a@b@c"` the code extracts the substring after
the FIRST `@` (`"b@c"`), not the substring after the last `@` (`"c"`) the
claim describes. -/
theorem domain_not_after_last_at :
    getEmailDomain "a@b@c" = some "b@c" ∧
    domainAfterLastAt "a@b@c" = some "c" ∧
    ¬(getEmailDomain "a@b@c" = domainAfterLastAt "a@b@c") := by
  refine ⟨by decide, by decide, by decide⟩

/-- C5 amended: on input free of line terminators, provider detection
extracts the domain as the substring after the FIRST `@` (lowercased)
when that substring is non-empty, and otherwise — in particular for every
email without `@` — yields no domain; and editing the email to a string
with no extractable domain clears both the detected domain and the
matched profile. -/
theorem domain_after_first_at :
    (∀ email : String, email.data.all jsDotChar = true →
      getEmailDomain email = domainAfterFirstAt email) ∧
    (∀ (s : WorkflowState) (v : String), ¬(v = s.email) →
      getEmailDomain v = none →
      (step s (Ev.edit Field.email v)).emailDomain = none ∧
      (step s (Ev.edit Field.email v)).smtpConfig = none) := by
  constructor
  · intro email hall
    unfold getEmailDomain domainAfterFirstAt
    rw [domainMatch_characterization email.data hall,
      apply_ite (Option.map List.asString)]
    simp only [Option.map_some', Option.map_none']
  · intro s v hne hgd
    have hb : (v == s.email) = false := beq_eq_false_iff_ne.mpr hne
    constructor
    · simp only [step]
      rw [atse_emailDomain, afce_emailDomain]
      simp [hb, hgd]
    · simp only [step]
      rw [atse_smtpConfig, afce_smtpConfig]
      simp [hb, hgd]

/-- Witness for C5 amended. -/
theorem domain_after_first_at_witness :
    getEmailDomain "User@Gmail.com" = domainAfterFirstAt "User@Gmail.com" ∧
    (step (initState none) (Ev.edit Field.email "nodomain")).emailDomain = none ∧
    (step (initState none) (Ev.edit Field.email "nodomain")).smtpConfig = none :=
  ⟨domain_after_first_at.1 "User@Gmail.com" (by decide),
    (domain_after_first_at.2 (initState none) "nodomain" (by decide) (by decide)).1,
    (domain_after_first_at.2 (initState none) "nodomain" (by decide) (by decide)).2⟩

/-- C6: a successful clear response resets the four editable fields to
empty, clears the detected domain and matched profile, and lowers both
gate flags — from every prior workflow state, including states with a
save or test still in flight. -/
theorem clear_resets_workflow :
    ∀ (s : WorkflowState) (r : FetcherData), r.success = true →
      (step s (Ev.clearResponse r)).email = "" ∧
      (step s (Ev.clearResponse r)).password = "" ∧
      (step s (Ev.clearResponse r)).smtpHost = "" ∧
      (step s (Ev.clearResponse r)).smtpPort = "" ∧
      (step s (Ev.clearResponse r)).emailDomain = none ∧
      (step s (Ev.clearResponse r)).smtpConfig = none ∧
      (step s (Ev.clearResponse r)).testPassed = false ∧
      (step s (Ev.clearResponse r)).testResultValid = false := by
  intro s r h
  simp [step, h]

/-- Witness for C6: clearing while both a save and a test are in flight. -/
theorem clear_resets_workflow_witness :
    (step
      { initState none with
        email := "a@gmail.com"
        password := "pw"
        smtpHost := "smtp.gmail.com"
        smtpPort := "587"
        testPassed := true
        saveF := ⟨FetcherPhase.submitting, none⟩
        testF := ⟨FetcherPhase.submitting, none⟩ }
      (Ev.clearResponse ⟨true, none⟩)).email = "" ∧
    (step
      { initState none with
        email := "a@gmail.com"
        password := "pw"
        smtpHost := "smtp.gmail.com"
        smtpPort := "587"
        testPassed := true
        saveF := ⟨FetcherPhase.submitting, none⟩
        testF := ⟨FetcherPhase.submitting, none⟩ }
      (Ev.clearResponse ⟨true, none⟩)).testPassed = false :=
  ⟨(clear_resets_workflow _ ⟨true, none⟩ (by decide)).1,
    (clear_resets_workflow _ ⟨true, none⟩ (by decide)).2.2.2.2.2.2.1⟩

/-- C9: when the debounce timer fires for an email whose domain is not in
the provider table, the matched profile is cleared and the host/port
inputs become user-editable; the host and port fields are cleared exactly
when no persisted host exists, and otherwise keep their current values as
defaults. -/
theorem unknown_provider_detection :
    ∀ (s : WorkflowState) (d : String),
      s.pendingTimer = true → getEmailDomain s.email = some d →
      SMTP_CONFIGS d = none →
      (step s Ev.debounceFire).emailDomain = some d ∧
      (step s Ev.debounceFire).smtpConfig = none ∧
      hostPortEditable (step s Ev.debounceFire) = true ∧
      (strFalsy (s.settings.bind (fun st => st.smtp_host)) = true →
        (step s Ev.debounceFire).smtpHost = "" ∧
        (step s Ev.debounceFire).smtpPort = "") ∧
      (strFalsy (s.settings.bind (fun st => st.smtp_host)) = false →
        (step s Ev.debounceFire).smtpHost = s.smtpHost ∧
        (step s Ev.debounceFire).smtpPort = s.smtpPort) := by
  intro s d hp hgd hc
  simp only [step, hp, Bool.not_true, Bool.false_eq_true, if_false, hgd, hc]
  cases hf : strFalsy (s.settings.bind (fun st => st.smtp_host)) <;>
    simp [hf, atse_emailDomain, afce_emailDomain, atse_smtpConfig,
      afce_smtpConfig, atse_smtpHost, afce_smtpHost, atse_smtpPort,
      afce_smtpPort, hostPortEditable]

/-- Witness for C9: unknown domain, no persisted host. -/
theorem unknown_provider_detection_witness :
    (step (run (initState none) [Ev.edit Field.email "a@b.c"])
      Ev.debounceFire).emailDomain = some "b.c" ∧
    (step (run (initState none) [Ev.edit Field.email "a@b.c"])
      Ev.debounceFire).smtpConfig = none ∧
    (step (run (initState none) [Ev.edit Field.email "a@b.c"])
      Ev.debounceFire).smtpHost = "" :=
  ⟨(unknown_provider_detection _ "b.c" (by decide) (by decide) (by decide)).1,
    (unknown_provider_detection _ "b.c" (by decide) (by decide) (by decide)).2.1,
    ((unknown_provider_detection _ "b.c" (by decide) (by decide) (by decide)).2.2.2.1
      (by decide)).1⟩

/-- C10: at mount with a persisted config, the detected domain and
matched profile are computed from the persisted email synchronously (no
debounce event is involved), the initial host and port field values come
from the persisted row rather than the matched profile, and the SMTP
section renders as soon as the persisted email has a domain. -/
theorem init_from_persisted_settings :
    ∀ (st : FormSettings) (e : String), st.notification_email = some e →
      (initState (some st)).emailDomain = getEmailDomain e ∧
      (initState (some st)).smtpConfig = (getEmailDomain e).bind SMTP_CONFIGS ∧
      (initState (some st)).smtpHost = st.smtp_host.getD "" ∧
      (initState (some st)).smtpPort = (st.smtp_port.map toString).getD "" ∧
      ((getEmailDomain e).isSome = true →
        smtpSectionShown (initState (some st)) = true) := by
  intro st e he
  refine ⟨?_, ?_, rfl, rfl, ?_⟩
  · simp [initState, he]
  · simp [initState, he]
  · intro hd
    simp [initState, smtpSectionShown, he, hd]

/-- Witness for C10: a persisted gmail row whose stored host and port
deliberately differ from the profile values. -/
theorem init_from_persisted_settings_witness :
    (initState (some ⟨"s1", "f1", some "me@gmail.com", some "pw",
        some "my.relay.example", some 2525, 1, 0⟩)).smtpConfig =
      SMTP_CONFIGS "gmail.com" ∧
    (initState (some ⟨"s1", "f1", some "me@gmail.com", some "pw",
        some "my.relay.example", some 2525, 1, 0⟩)).smtpHost =
      "my.relay.example" ∧
    (initState (some ⟨"s1", "f1", some "me@gmail.com", some "pw",
        some "my.relay.example", some 2525, 1, 0⟩)).smtpPort = "2525" :=
  ⟨(init_from_persisted_settings _ "me@gmail.com" (by decide)).2.1.trans (by decide),
    (init_from_persisted_settings _ "me@gmail.com" (by decide)).2.2.1.trans (by decide),
    (init_from_persisted_settings _ "me@gmail.com" (by decide)).2.2.2.1.trans (by decide)⟩

/-! ## Claim theorems: persistence actions -/

/-- C3: a save on an existing form with all four fields non-empty and a
parseable port succeeds (200) regardless of any test history (the action
has no test-history input at all), upserts — updating the existing row in
place, else inserting with the fresh id — and a subsequent loader read
returns exactly the submitted email, credential and host, the port as the
integer parse of the submitted string, and `smtp_secure = 1`. -/
theorem save_roundtrip :
    ∀ (forms : List String) (store : Store) (freshId : String) (now : Int)
      (req : ActionRequest) (n : Int),
      req.method = Method.POST →
      forms.contains req.formId = true →
      missingRequired req = false →
      jsParseInt (req.smtp_port.getD "") = some n →
      (notificationsAction forms store freshId now req).1 = ⟨200, true, none⟩ ∧
      (∃ row : FormSettings,
        loader (notificationsAction forms store freshId now req).2 req.formId =
          some row ∧
        row.notification_email = req.notification_email ∧
        row.notification_email_password = req.notification_email_password ∧
        row.smtp_host = req.smtp_host ∧
        row.smtp_port = some n ∧
        row.smtp_secure = 1 ∧
        (∀ old, loader store req.formId = some old → row.id = old.id) ∧
        (loader store req.formId = none → row.id = freshId)) ∧
      (loader store req.formId ≠ none →
        (notificationsAction forms store freshId now req).2.length = store.length) ∧
      (loader store req.formId = none →
        (notificationsAction forms store freshId now req).2.length =
          store.length + 1) := by
  intro forms store freshId now req n h1 h2 h3 h4
  have hmem : req.formId ∈ forms := by simpa using h2
  cases hfind : store.find? (fun r => r.form_id == req.formId) with
  | some old =>
    have hold : loader store req.formId = some old := hfind
    have hres1 : (notificationsAction forms store freshId now req).1 =
        ⟨200, true, none⟩ := by
      simp [notificationsAction, hmem, h1, h3, h4, hfind]
    have hres2 : (notificationsAction forms store freshId now req).2 =
        store.map (fun r =>
          if r.form_id = req.formId then
            { r with
              notification_email := req.notification_email
              notification_email_password := req.notification_email_password
              smtp_host := req.smtp_host
              smtp_port := some n
              smtp_secure := 1
              updated_at := now }
          else r) := by
      simp [notificationsAction, hmem, h1, h3, h4, hfind]
    have hload : loader (notificationsAction forms store freshId now req).2
        req.formId = some
          { old with
            notification_email := req.notification_email
            notification_email_password := req.notification_email_password
            smtp_host := req.smtp_host
            smtp_port := some n
            smtp_secure := 1
            updated_at := now } := by
      rw [hres2]
      unfold loader
      rw [find?_map_upsert req.formId (fun r =>
          { r with
            notification_email := req.notification_email
            notification_email_password := req.notification_email_password
            smtp_host := req.smtp_host
            smtp_port := some n
            smtp_secure := 1
            updated_at := now }) (fun r => rfl) store, hfind]
      rfl
    refine ⟨hres1, ⟨_, hload, rfl, rfl, rfl, rfl, rfl, ?_, ?_⟩, ?_, ?_⟩
    · intro old2 hold2
      have heq : old2 = old := by
        rw [hold] at hold2
        exact (Option.some.inj hold2).symm
      rw [heq]
    · intro hnone
      rw [hold] at hnone
      exact Option.noConfusion hnone
    · intro _
      rw [hres2]
      simp
    · intro hnone
      rw [hold] at hnone
      exact Option.noConfusion hnone
  | none =>
    have hnold : loader store req.formId = none := hfind
    have hres1 : (notificationsAction forms store freshId now req).1 =
        ⟨200, true, none⟩ := by
      simp [notificationsAction, hmem, h1, h3, h4, hfind]
    have hres2 : (notificationsAction forms store freshId now req).2 =
        store ++ [⟨freshId, req.formId, req.notification_email,
          req.notification_email_password, req.smtp_host, some n, 1, now⟩] := by
      simp [notificationsAction, hmem, h1, h3, h4, hfind]
    have hload : loader (notificationsAction forms store freshId now req).2
        req.formId = some ⟨freshId, req.formId, req.notification_email,
          req.notification_email_password, req.smtp_host, some n, 1, now⟩ := by
      rw [hres2]
      unfold loader
      rw [find?_append_singleton _ _ store hfind]
      simp
    refine ⟨hres1, ⟨_, hload, rfl, rfl, rfl, rfl, rfl, ?_, fun _ => rfl⟩, ?_, ?_⟩
    · intro old2 hold2
      rw [hnold] at hold2
      exact Option.noConfusion hold2
    · intro hsome
      exact absurd hnold hsome
    · intro _
      rw [hres2]
      simp

/-- Witness for C3: save on an existing form over an empty store. -/
theorem save_roundtrip_witness :
    (notificationsAction ["f1"] [] "id1" 7
      ⟨Method.POST, "f1", some "me@b.c", some "pw", some "smtp.b.c", some "587"⟩).1 =
      ⟨200, true, none⟩ ∧
    loader (notificationsAction ["f1"] [] "id1" 7
      ⟨Method.POST, "f1", some "me@b.c", some "pw", some "smtp.b.c", some "587"⟩).2
      "f1" = some ⟨"id1", "f1", some "me@b.c", some "pw", some "smtp.b.c",
        some 587, 1, 7⟩ :=
  ⟨(save_roundtrip ["f1"] [] "id1" 7
      ⟨Method.POST, "f1", some "me@b.c", some "pw", some "smtp.b.c", some "587"⟩
      587 rfl (by decide) (by decide) (by decide)).1,
    by decide⟩

/-- C4 counterexample: a save on an existing form whose port field is the
non-empty, non-numeric string `"abc"` does NOT get a 400 validation
error — it passes the required-field check and fails at the store layer
with a 500 (and writes nothing). -/
theorem nonNumericPort_not_validation_error :
    (notificationsAction ["f1"] [] "id1" 0
      ⟨Method.POST, "f1", some "a@b.c", some "pw", some "smtp.example",
        some "abc"⟩).1.status = 500 ∧
    ¬((notificationsAction ["f1"] [] "id1" 0
      ⟨Method.POST, "f1", some "a@b.c", some "pw", some "smtp.example",
        some "abc"⟩).1.status = 400) ∧
    (notificationsAction ["f1"] [] "id1" 0
      ⟨Method.POST, "f1", some "a@b.c", some "pw", some "smtp.example",
        some "abc"⟩).2 = [] :=
  ⟨by decide, by decide, by decide⟩

/-- C4 amended: a save on an existing form whose port field is absent or
empty gets the 400 validation error and writes no row; a save whose port
is non-empty but has no parseable leading digits (`parseInt` yields NaN)
passes the required-field validation and instead fails at the store layer
with a 500, also writing no row. -/
theorem port_validation_amended :
    ∀ (forms : List String) (store : Store) (freshId : String) (now : Int)
      (req : ActionRequest),
      forms.contains req.formId = true → req.method = Method.POST →
      (strFalsy req.smtp_port = true →
        (notificationsAction forms store freshId now req).1 =
          ⟨400, false, some "Missing required fields"⟩ ∧
        (notificationsAction forms store freshId now req).2 = store) ∧
      (missingRequired req = false →
        jsParseInt (req.smtp_port.getD "") = none →
        (notificationsAction forms store freshId now req).1 =
          ⟨500, false, some "Failed to save settings"⟩ ∧
        (notificationsAction forms store freshId now req).2 = store) := by
  intro forms store freshId now req h1 h2
  have hmem : req.formId ∈ forms := by simpa using h1
  constructor
  · intro hsf
    have hmr : missingRequired req = true := by
      simp [missingRequired, hsf]
    constructor <;> simp [notificationsAction, hmem, h2, hmr]
  · intro hmr hparse
    constructor <;> simp [notificationsAction, hmem, h2, hmr, hparse]

/-- Witness for C4 amended: empty port on an existing form. -/
theorem port_validation_amended_witness :
    (notificationsAction ["f1"] [] "id1" 0
      ⟨Method.POST, "f1", some "a@b.c", some "pw", some "smtp.example",
        some ""⟩).1 = ⟨400, false, some "Missing required fields"⟩ ∧
    (notificationsAction ["f1"] [] "id1" 0
      ⟨Method.POST, "f1", some "a@b.c", some "pw", some "smtp.example",
        some ""⟩).2 = [] :=
  (port_validation_amended ["f1"] [] "id1" 0
    ⟨Method.POST, "f1", some "a@b.c", some "pw", some "smtp.example", some ""⟩
    (by decide) rfl).1 (by decide)

/-- C7: when the target form does not exist, the notifications action
(save or clear, any verb) answers 404 "Form not found" and leaves the
store untouched, and a test request (POST) answers 404 and dispatches no
email — in both cases before any field validation, so even with missing
body fields. -/
theorem missing_form_404_no_side_effects :
    ∀ (forms : List String) (store : Store) (freshId : String) (now : Int)
      (req : ActionRequest) (sendTest : TestConfig → TestOutcome),
      forms.contains req.formId = false →
      (notificationsAction forms store freshId now req).1 =
        ⟨404, false, some "Form not found"⟩ ∧
      (notificationsAction forms store freshId now req).2 = store ∧
      (req.method = Method.POST →
        testAction forms sendTest req =
          (⟨404, false, some "Form not found"⟩, none)) := by
  intro forms store freshId now req sendTest h
  have hnmem : req.formId ∉ forms := by simpa using h
  refine ⟨by simp [notificationsAction, hnmem],
    by simp [notificationsAction, hnmem], ?_⟩
  intro hm
  simp [testAction, hm, hnmem]

/-- Witness for C7: a request against a store holding one row for another
form, with every body field absent. -/
theorem missing_form_404_no_side_effects_witness :
    (notificationsAction ["f1"] [⟨"s1", "f1", none, none, none, none, 1, 0⟩]
      "id" 0 ⟨Method.POST, "ghost", none, none, none, none⟩).1 =
      ⟨404, false, some "Form not found"⟩ ∧
    (notificationsAction ["f1"] [⟨"s1", "f1", none, none, none, none, 1, 0⟩]
      "id" 0 ⟨Method.POST, "ghost", none, none, none, none⟩).2 =
      [⟨"s1", "f1", none, none, none, none, 1, 0⟩] ∧
    testAction ["f1"] (fun _ => TestOutcome.fail "boom")
      ⟨Method.POST, "ghost", none, none, none, none⟩ =
      (⟨404, false, some "Form not found"⟩, none) :=
  ⟨(missing_form_404_no_side_effects ["f1"]
      [⟨"s1", "f1", none, none, none, none, 1, 0⟩] "id" 0
      ⟨Method.POST, "ghost", none, none, none, none⟩
      (fun _ => TestOutcome.fail "boom") (by decide)).1,
    (missing_form_404_no_side_effects ["f1"]
      [⟨"s1", "f1", none, none, none, none, 1, 0⟩] "id" 0
      ⟨Method.POST, "ghost", none, none, none, none⟩
      (fun _ => TestOutcome.fail "boom") (by decide)).2.1,
    (missing_form_404_no_side_effects ["f1"]
      [⟨"s1", "f1", none, none, none, none, 1, 0⟩] "id" 0
      ⟨Method.POST, "ghost", none, none, none, none⟩
      (fun _ => TestOutcome.fail "boom") (by decide)).2.2 rfl⟩

/-- C8: the clear (DELETE) action on an existing form answers
200 `{success:true}` whether or not a config row exists — the store keeps
exactly the rows of other forms, and when no row for the form exists the
store is unchanged. -/
theorem delete_idempotent :
    ∀ (forms : List String) (store : Store) (freshId : String) (now : Int)
      (req : ActionRequest),
      forms.contains req.formId = true → req.method = Method.DELETE →
      (notificationsAction forms store freshId now req).1 = ⟨200, true, none⟩ ∧
      (notificationsAction forms store freshId now req).2 =
        store.filter (fun r => !(r.form_id == req.formId)) ∧
      ((∀ r ∈ store, ¬(r.form_id = req.formId)) →
        (notificationsAction forms store freshId now req).2 = store) := by
  intro forms store freshId now req h1 h2
  have hmem : req.formId ∈ forms := by simpa using h1
  have h2nd : (notificationsAction forms store freshId now req).2 =
      store.filter (fun r => !(r.form_id == req.formId)) := by
    simp [notificationsAction, hmem, h2]
  refine ⟨by simp [notificationsAction, hmem, h2], h2nd, ?_⟩
  intro hnone
  rw [h2nd]
  exact List.filter_eq_self.mpr (fun r hr => by simp [hnone r hr])

/-- Witness for C8: delete on a form with no existing config row. -/
theorem delete_idempotent_witness :
    (notificationsAction ["f1"] [⟨"s2", "f2", none, none, none, none, 1, 0⟩]
      "id" 0 ⟨Method.DELETE, "f1", none, none, none, none⟩).1 =
      ⟨200, true, none⟩ ∧
    (notificationsAction ["f1"] [⟨"s2", "f2", none, none, none, none, 1, 0⟩]
      "id" 0 ⟨Method.DELETE, "f1", none, none, none, none⟩).2 =
      [⟨"s2", "f2", none, none, none, none, 1, 0⟩] :=
  ⟨(delete_idempotent ["f1"] [⟨"s2", "f2", none, none, none, none, 1, 0⟩]
      "id" 0 ⟨Method.DELETE, "f1", none, none, none, none⟩ (by decide) rfl).1,
    (delete_idempotent ["f1"] [⟨"s2", "f2", none, none, none, none, 1, 0⟩]
      "id" 0 ⟨Method.DELETE, "f1", none, none, none, none⟩ (by decide) rfl).2.2
      (by decide)⟩

end FormZero
